import Mathlib

/-!
Verification development for the netlify-cli local development proxy and the
`env:set` command.  Definitions are a shallow embedding: the `env:set` logic is
translated from `src/commands/env/env-set.ts`; the dev-server components
(environment resolver, rule matcher, static asset resolver, function registry,
request router, function dispatcher) are not part of the shipped sources here,
so they are modelled from the specification (each such definition says so in
its doc comment).  Theorems at the end settle the frozen claims.
-/

/-- Substring test on character lists: does the needle occur contiguously in
the haystack? -/
def charsInfixOf (needle : List Char) : List Char → Bool
  | [] => needle.isEmpty
  | c :: rest => needle.isPrefixOf (c :: rest) || charsInfixOf needle rest

/-- Substring test on strings, via the underlying character lists. -/
def strContains (hay needle : String) : Bool :=
  charsInfixOf needle.data hay.data

/-- Last-write-wins lookup in an ordered association list: the value of the
latest entry for the given name, if any.  This is the mapping an ordered
layer of (name, value) pairs denotes under the override fold below. -/
def lastLookup (l : List (String × String)) (n : String) : Option String :=
  l.reverse.lookup n

/-- Insert one (name, value) pair into an association list, overwriting any
previous entry with the same name (set-union-keyed-on-name semantics). -/
def insertOverride (acc : List (String × String)) (h : String × String) :
    List (String × String) :=
  acc.filter (fun p => p.1 != h.1) ++ [h]

/-- Fold a layer of (name, value) pairs onto an accumulated association list,
each pair overriding any same-named earlier entry. -/
def applyOverrides (acc : List (String × String)) (layer : List (String × String)) :
    List (String × String) :=
  layer.foldl insertOverride acc

theorem lookup_filter_self (acc : List (String × String)) (k : String) :
    (acc.filter (fun p => p.1 != k)).lookup k = none := by
  induction acc with
  | nil => rfl
  | cons p t ih =>
    obtain ⟨a, b⟩ := p
    rw [List.filter_cons]
    by_cases hk : a = k
    · subst hk
      simp only [bne_self_eq_false]
      rw [if_neg (by simp)]
      exact ih
    · have h1 : ((a, b).1 != k) = true := by simp [hk]
      rw [if_pos h1]
      have h2 : (k == a) = false := beq_eq_false_iff_ne.mpr (fun e => hk e.symm)
      simp only [List.lookup_cons, h2]
      exact ih

theorem lookup_filter_ne (acc : List (String × String)) (k n : String) (h : n ≠ k) :
    (acc.filter (fun p => p.1 != k)).lookup n = acc.lookup n := by
  induction acc with
  | nil => rfl
  | cons p t ih =>
    obtain ⟨a, b⟩ := p
    rw [List.filter_cons]
    by_cases hk : a = k
    · subst hk
      simp only [bne_self_eq_false]
      rw [if_neg (by simp)]
      have h2 : (n == a) = false := beq_eq_false_iff_ne.mpr h
      simp only [List.lookup_cons, h2]
      exact ih
    · have h1 : ((a, b).1 != k) = true := by simp [hk]
      rw [if_pos h1]
      by_cases hn : n = a
      · subst hn
        simp [List.lookup_cons]
      · have h2 : (n == a) = false := beq_eq_false_iff_ne.mpr hn
        simp only [List.lookup_cons, h2]
        exact ih

theorem lookup_insertOverride (acc : List (String × String)) (h : String × String)
    (n : String) :
    (insertOverride acc h).lookup n =
      if n = h.1 then some h.2 else acc.lookup n := by
  obtain ⟨a, b⟩ := h
  unfold insertOverride
  rw [List.lookup_append]
  by_cases hn : n = a
  · subst hn
    rw [lookup_filter_self]
    simp [List.lookup_cons]
  · rw [lookup_filter_ne _ _ _ hn]
    have h2 : (n == a) = false := beq_eq_false_iff_ne.mpr hn
    simp [List.lookup_cons, h2, Option.or_none, hn]

theorem lookup_applyOverrides (layer acc : List (String × String)) (n : String) :
    (applyOverrides acc layer).lookup n = (lastLookup layer n).or (acc.lookup n) := by
  induction layer generalizing acc with
  | nil => simp [applyOverrides, lastLookup]
  | cons h t ih =>
    show (applyOverrides (insertOverride acc h) t).lookup n = _
    rw [ih, lookup_insertOverride]
    unfold lastLookup
    rw [List.reverse_cons, List.lookup_append]
    obtain ⟨a, b⟩ := h
    cases hx : t.reverse.lookup n with
    | some v => simp [Option.or]
    | none =>
      simp only [Option.none_or]
      by_cases hn : n = a
      · subst hn
        simp [List.lookup_cons, Option.or]
      · have h2 : (n == a) = false := beq_eq_false_iff_ne.mpr hn
        simp [List.lookup_cons, h2, hn]

/-- Modelled from the spec: the EnvironmentResolver's configuration layers
(the resolver itself is not among the shipped sources).  Each layer is an
ordered list of (name, value) pairs; `contextEnvironment` gives the override
block declared for a named context. -/
structure EnvConfig where
  buildEnvironment : List (String × String)
  contextEnvironment : String → List (String × String)
  envFile : List (String × String)
  processEnv : List (String × String)

/-- Modelled from the spec: `EnvironmentResolver.resolve` (missing from the
shipped sources).  Layers are folded weakest to strongest with same-named
keys overridden: build environment, then the active context's override block,
then the `.env.development` file (dev context only), then the process
environment. -/
def resolveEnv (ctx : String) (cfg : EnvConfig) : List (String × String) :=
  applyOverrides
    (applyOverrides
      (applyOverrides
        (applyOverrides [] cfg.buildEnvironment)
        (cfg.contextEnvironment ctx))
      (if ctx = "dev" then cfg.envFile else []))
    cfg.processEnv

/-- A header rule: a glob-style path pattern plus an ordered list of
(name, value) header pairs. -/
structure HeaderRule where
  pathPattern : String
  headers : List (String × String)

/-- Modelled from the spec: the RuleMatcher's pattern test (missing from the
shipped sources).  A pattern matches a request path if it equals the path, or
it ends in a trailing wildcard segment and its base (the pattern minus the
star) is a prefix of the path. -/
def patternMatches (pat path : String) : Bool :=
  pat == path ||
    (['*', '/'].isPrefixOf pat.data.reverse && pat.data.dropLast.isPrefixOf path.data)

/-- Modelled from the spec: the RuleMatcher's header merge (missing from the
shipped sources).  The header sets of all matching rules are merged by set
union keyed on header name, a later-declared rule overwriting an earlier one
for the same name. -/
def mergeHeaders (rules : List HeaderRule) (path : String) : List (String × String) :=
  (rules.filter (fun r => patternMatches r.pathPattern path)).foldl
    (fun acc r => applyOverrides acc r.headers) []

/-- A redirect rule: a path pattern, a 3xx status and a target location. -/
structure RedirectRule where
  pathPattern : String
  status : Nat
  target : String

/-- Modelled from the spec: redirect rules are first-match-wins. -/
def findRedirect (rules : List RedirectRule) (path : String) : Option RedirectRule :=
  rules.find? (fun r => patternMatches r.pathPattern path)

/-- A function response: status, body, headers, and whether the payload
carried `metadata.builder_function === true`. -/
structure FnResponse where
  statusCode : Nat
  body : String
  headers : List (String × String)
  builderMetadata : Bool
  deriving DecidableEq

/-- Modelled from the spec: a handler abstracted to the wall-clock duration of
its asynchronous work and the response it declares on completion. -/
structure Handler where
  duration : Nat
  response : FnResponse
  deriving DecidableEq

/-- Result of dispatching one invocation: the handler's response, or a
terminal timeout classification. -/
inductive InvocationResult where
  | ok (r : FnResponse)
  | timedOut
  deriving DecidableEq

/-- Modelled from the spec: `FunctionDispatcher.invoke` (missing from the
shipped sources) runs the handler under a hard wall-clock timeout budget;
work completing strictly within the budget yields the declared response
verbatim, otherwise the invocation fails with InvocationTimeout. -/
def invokeHandler (budget : Nat) (h : Handler) : InvocationResult :=
  if h.duration < budget then .ok h.response else .timedOut

/-- Tri-state builder eligibility: unknown until the first invocation, then
confirmed or demoted from the response metadata. -/
inductive BuilderFlag where
  | unknown
  | confirmed
  | demoted
  deriving DecidableEq

/-- A registered function: name, handler, and the cached builder flag. -/
structure FunctionDescriptor where
  name : String
  handler : Handler
  isBuilder : BuilderFlag
  deriving DecidableEq

/-- Modelled from the spec: `FunctionRegistry.lookup` by flat function name. -/
def lookupFunction (reg : List FunctionDescriptor) (n : String) :
    Option FunctionDescriptor :=
  reg.find? (fun d => d.name == n)

/-- Update the cached builder flag of the named descriptor. -/
def setBuilderFlag (reg : List FunctionDescriptor) (n : String) (f : BuilderFlag) :
    List FunctionDescriptor :=
  reg.map (fun d => if d.name == n then { d with isBuilder := f } else d)

/-- Modelled from the spec: the in-memory state the RequestRouter consults —
the function registry with its cached builder flags, the header and redirect
rules, the static files (site-relative path to byte content) and the
configured timeout budget. -/
structure ServerState where
  registry : List FunctionDescriptor
  headerRules : List HeaderRule
  redirectRules : List RedirectRule
  files : List (String × String)
  timeoutBudget : Nat

def functionsRouteChars : List Char := "/.netlify/functions/".data

def buildersRouteChars : List Char := "/.netlify/builders/".data

/-- The three request shapes the router distinguishes. -/
inductive ParsedRequest where
  | functionInvocation (name : String)
  | builderInvocation (name : String)
  | sitePath (path : String)

/-- Modelled from the spec: the router's reserved-prefix interception — a path
under `/.netlify/functions/` is a normal function invocation, one under
`/.netlify/builders/` a builder invocation, anything else a site path. -/
def parseRequest (path : String) : ParsedRequest :=
  if functionsRouteChars.isPrefixOf path.data then
    .functionInvocation ⟨path.data.drop functionsRouteChars.length⟩
  else if buildersRouteChars.isPrefixOf path.data then
    .builderInvocation ⟨path.data.drop buildersRouteChars.length⟩
  else
    .sitePath path

/-- Strip one leading slash from a request path, giving a site-relative path. -/
def stripSlash (p : String) : String :=
  match p.data with
  | '/' :: rest => ⟨rest⟩
  | _ => p

/-- Does the relative path denote a directory of the site (the root, or a
proper ancestor of some stored file)? -/
def isDirPath (files : List (String × String)) (rel : String) : Bool :=
  rel == "" || files.any (fun f => (rel ++ "/").data.isPrefixOf f.1.data)

/-- Modelled from the spec: `StaticAssetResolver.resolve` (missing from the
shipped sources).  An existing file is served as is; a path resolving to a
directory falls back to `index.html` within that directory; otherwise the
asset is not found. -/
def resolveStatic (files : List (String × String)) (reqPath : String) :
    Option String :=
  let rel := stripSlash reqPath
  match files.lookup rel with
  | some content => some content
  | none =>
    if isDirPath files rel then
      files.lookup (if rel == "" then "index.html" else rel ++ "/index.html")
    else none

/-- Modelled from the spec: the builder-contract-violation body.  The exact
bytes are pinned by the integration test
`should fail when no metadata is set for builder function`: a fixed message
naming no particular function and directing to the builder documentation. -/
def builderRejectionBody : String :=
  "\x7b\"message\":\"Function is not an on-demand builder. See https://ntl.fyi/create-builder for how to convert a function to a builder.\"\x7d"

def notFoundResponse : FnResponse := ⟨404, "Not Found", [], false⟩

def timeoutResponse : FnResponse := ⟨504, "InvocationTimeout", [], false⟩

def builderRejection : FnResponse := ⟨400, builderRejectionBody, [], false⟩

/-- Layer the matched header rules onto a response's own headers. -/
def withRuleHeaders (st : ServerState) (path : String) (r : FnResponse) :
    FnResponse :=
  { r with headers := applyOverrides r.headers (mergeHeaders st.headerRules path) }

/-- Modelled from the spec: the RequestRouter state machine (missing from the
shipped sources).  Fixed priority: normal function invocation (allowed
regardless of the builder flag), builder invocation (rejected with a 400 and
a demoted flag when the response lacks builder metadata, or immediately when
already demoted), redirects, static assets, 404.  Header rules apply to every
final response kind except the explicit builder rejection.  Returns the
response plus the post-request server state. -/
def routeRequest (st : ServerState) (path : String) : FnResponse × ServerState :=
  match parseRequest path with
  | .functionInvocation name =>
    match lookupFunction st.registry name with
    | none => (withRuleHeaders st path notFoundResponse, st)
    | some d =>
      match invokeHandler st.timeoutBudget d.handler with
      | .ok r => (withRuleHeaders st path r, st)
      | .timedOut => (withRuleHeaders st path timeoutResponse, st)
  | .builderInvocation name =>
    match lookupFunction st.registry name with
    | none => (withRuleHeaders st path notFoundResponse, st)
    | some d =>
      match d.isBuilder with
      | .demoted => (builderRejection, st)
      | _ =>
        match invokeHandler st.timeoutBudget d.handler with
        | .timedOut => (withRuleHeaders st path timeoutResponse, st)
        | .ok r =>
          if r.builderMetadata then
            (withRuleHeaders st path r,
              { st with registry := setBuilderFlag st.registry name .confirmed })
          else
            (builderRejection,
              { st with registry := setBuilderFlag st.registry name .demoted })
  | .sitePath p =>
    match findRedirect st.redirectRules p with
    | some rr => (withRuleHeaders st path ⟨rr.status, "", [("Location", rr.target)], false⟩, st)
    | none =>
      match resolveStatic st.files p with
      | some content => (withRuleHeaders st path ⟨200, content, [], false⟩, st)
      | none => (withRuleHeaders st path notFoundResponse, st)

/-- One stored value of an Envelope environment variable: a deploy context
(or `branch` plus the branch name in `context_parameter`) and the value. -/
structure EnvVarValue where
  context : String
  context_parameter : Option String
  value : String
  deriving DecidableEq

/-- An Envelope environment variable as returned by `api.getEnvVars`. -/
structure EnvVar where
  key : String
  scopes : List String
  values : List EnvVarValue
  deriving DecidableEq

/-- Modelled from the spec: the deploy-context enumeration exported by
`utils/env` (not among the shipped sources); `all` plus the four concrete
contexts named throughout the command help text. -/
def AVAILABLE_CONTEXTS : List String :=
  ["all", "production", "deploy-preview", "branch-deploy", "dev"]

/-- Modelled from the spec: the scope enumeration exported by `utils/env`
(not among the shipped sources), as listed in the env command options. -/
def AVAILABLE_SCOPES : List String :=
  ["builds", "functions", "runtime", "post_processing"]

/-- The regex test `/post[-_]processing/.test(sco)`: does the scope name
contain `post-processing` or `post_processing` as a substring? -/
def isPostProcessingScope (sco : String) : Bool :=
  strContains sco "post-processing" || strContains sco "post_processing"

/-- A mutating call against the remote Envelope API. -/
inductive ApiCall where
  | setEnvVarValue (key : String) (body : EnvVarValue)
  | updateEnvVar (key : String) (isSecret : Bool) (scopes : List String)
      (values : List EnvVarValue)
  | createEnvVars (key : String) (isSecret : Bool) (scopes : List String)
      (values : List EnvVarValue)
  deriving DecidableEq

/-- Outcome of one `env:set` run: the mutating API calls issued, and the
error message if the command failed (error paths issue no mutating call). -/
structure EnvSetOutcome where
  calls : List ApiCall
  errorMsg : Option String
  deriving DecidableEq

/-- `setInEnvelope` from `src/commands/env/env-set.ts`, translated
structurally: `context` and `scope` are the optional variadic flags, `secret`
the `--secret` flag, `value` the positional value (empty string when absent,
matching the JS falsiness checks), and `envelopeVariables` the list fetched
from `api.getEnvVars`. -/
def setInEnvelope (context : Option (List String)) (key : String)
    (scope : Option (List String)) (secret : Bool) (value : String)
    (envelopeVariables : List EnvVar) : EnvSetOutcome :=
  if secret && (match scope with
      | some s => s.any isPostProcessingScope
      | none => false) then
    ⟨[], some "Secret values cannot be used within the post-processing scope."⟩
  else if secret && value != "" && (context.isNone || (context.getD []).contains "dev") then
    ⟨[], some "To set a secret environment variable value, please specify a non-development context with the `--context` flag."⟩
  else
    let contexts := context.getD ["all"]
    let scopes0 := scope.getD AVAILABLE_SCOPES
    let scopes1 := if secret then scopes0.filter (fun sco => !isPostProcessingScope sco)
      else scopes0
    let values0 : List EnvVarValue := contexts.map (fun ctx =>
      if AVAILABLE_CONTEXTS.contains ctx then ⟨ctx, none, value⟩
      else ⟨"branch", some ctx, value⟩)
    match envelopeVariables.find? (fun envVar => envVar.key == key) with
    | some existing =>
      let values1 := if value = "" then existing.values else values0
      let scopes2 := if value = "" && scope.isNone then existing.scopes else scopes1
      if context.isSome && scope.isSome then
        ⟨[], some "Setting the context and scope at the same time on an existing env var is not allowed. Run the set command separately for each update."⟩
      else if context.isSome then
        ⟨values1.map (fun val => ApiCall.setEnvVarValue key val), none⟩
      else
        let scopes3 := if secret then scopes2.filter (fun sco => !isPostProcessingScope sco)
          else scopes2
        let values2 :=
          if secret && values1.any (fun val => val.context == "all") then
            (AVAILABLE_CONTEXTS.filter (fun ctx => ctx != "all")).map (fun ctx =>
              ⟨ctx, none,
                if ctx = "dev" then ""
                else (((values1.find? (fun val => val.context == "all")).map
                  (fun val => val.value)).getD "")⟩)
          else values1
        ⟨[ApiCall.updateEnvVar key secret scopes3 values2], none⟩
    | none =>
      ⟨[ApiCall.createEnvVars key secret scopes1 values0], none⟩

theorem parseRequest_functionRoute (name : String) :
    parseRequest ("/.netlify/functions/" ++ name) =
      ParsedRequest.functionInvocation name := by
  obtain ⟨l⟩ := name
  have hdata : ("/.netlify/functions/" ++ String.mk l).data = functionsRouteChars ++ l := rfl
  have h1 : functionsRouteChars.isPrefixOf (functionsRouteChars ++ l) = true := by
    simp [functionsRouteChars, List.isPrefixOf]
  unfold parseRequest
  rw [hdata, h1]
  simp [List.drop_left]

theorem parseRequest_builderRoute (name : String) :
    parseRequest ("/.netlify/builders/" ++ name) =
      ParsedRequest.builderInvocation name := by
  obtain ⟨l⟩ := name
  have hdata : ("/.netlify/builders/" ++ String.mk l).data = buildersRouteChars ++ l := rfl
  have h1 : functionsRouteChars.isPrefixOf (buildersRouteChars ++ l) = false := by
    simp [functionsRouteChars, buildersRouteChars, List.isPrefixOf]
  have h2 : buildersRouteChars.isPrefixOf (buildersRouteChars ++ l) = true := by
    simp [buildersRouteChars, List.isPrefixOf]
  unfold parseRequest
  rw [hdata, h1, h2]
  simp [List.drop_left]

theorem lookupFunction_setBuilderFlag (reg : List FunctionDescriptor) (n : String)
    (f : BuilderFlag) (d : FunctionDescriptor)
    (h : lookupFunction reg n = some d) :
    lookupFunction (setBuilderFlag reg n f) n = some { d with isBuilder := f } := by
  induction reg with
  | nil => simp [lookupFunction] at h
  | cons e t ih =>
    by_cases he : e.name = n
    · have hpos : (e.name == n) = true := beq_iff_eq.mpr he
      have hfc : List.find? (fun x : FunctionDescriptor => x.name == n) (e :: t) = some e :=
        List.find?_cons_of_pos _ hpos
      have hd : d = e := by
        unfold lookupFunction at h
        rw [hfc] at h
        exact (Option.some_inj.mp h).symm
      rw [hd]
      show List.find? (fun x : FunctionDescriptor => x.name == n)
          ((if (e.name == n) = true then { e with isBuilder := f } else e)
            :: setBuilderFlag t n f) = some { e with isBuilder := f }
      rw [if_pos hpos]
      exact List.find?_cons_of_pos _ hpos
    · have hneg : (e.name == n) = false := beq_eq_false_iff_ne.mpr he
      have hfc : List.find? (fun x : FunctionDescriptor => x.name == n) (e :: t) =
          List.find? (fun x : FunctionDescriptor => x.name == n) t :=
        List.find?_cons_of_neg _ (by simp [hneg])
      unfold lookupFunction at h
      rw [hfc] at h
      show List.find? (fun x : FunctionDescriptor => x.name == n)
          ((if (e.name == n) = true then { e with isBuilder := f } else e)
            :: setBuilderFlag t n f) = some { d with isBuilder := f }
      rw [if_neg (by simp [hneg])]
      have hfc2 : List.find? (fun x : FunctionDescriptor => x.name == n)
          (e :: setBuilderFlag t n f) =
          List.find? (fun x : FunctionDescriptor => x.name == n) (setBuilderFlag t n f) :=
        List.find?_cons_of_neg _ (by simp [hneg])
      rw [hfc2]
      exact ih h

theorem routeRequest_function_ok (st : ServerState) (name : String)
    (d : FunctionDescriptor)
    (hlook : lookupFunction st.registry name = some d)
    (hdur : d.handler.duration < st.timeoutBudget) :
    (routeRequest st ("/.netlify/functions/" ++ name)).1.statusCode =
        d.handler.response.statusCode ∧
      (routeRequest st ("/.netlify/functions/" ++ name)).1.body =
        d.handler.response.body ∧
      (routeRequest st ("/.netlify/functions/" ++ name)).2 = st := by
  refine ⟨?_, ?_, ?_⟩ <;>
    simp [routeRequest, parseRequest_functionRoute, hlook, invokeHandler, if_pos hdur,
      withRuleHeaders]

theorem routeRequest_builder_reject (st : ServerState) (name : String)
    (d : FunctionDescriptor)
    (hlook : lookupFunction st.registry name = some d)
    (hdur : d.handler.duration < st.timeoutBudget)
    (hmeta : d.handler.response.builderMetadata = false) :
    (routeRequest st ("/.netlify/builders/" ++ name)).1 = builderRejection ∧
      ((routeRequest st ("/.netlify/builders/" ++ name)).2 = st ∨
        (routeRequest st ("/.netlify/builders/" ++ name)).2 =
          { st with registry := setBuilderFlag st.registry name .demoted }) := by
  simp only [routeRequest, parseRequest_builderRoute, hlook, invokeHandler, if_pos hdur]
  cases hflag : d.isBuilder with
  | demoted => exact ⟨rfl, Or.inl rfl⟩
  | unknown => refine ⟨?_, Or.inr ?_⟩ <;> simp [hmeta]
  | confirmed => refine ⟨?_, Or.inr ?_⟩ <;> simp [hmeta]

/-- C8: every handler that completes its asynchronous work strictly within the
configured wall-clock timeout budget gets its declared response returned
unmodified by the dispatcher, rather than an InvocationTimeout. -/
theorem c8_dispatch_within_budget (budget : Nat) (h : Handler)
    (hdur : h.duration < budget) :
    invokeHandler budget h = InvocationResult.ok h.response := by
  unfold invokeHandler
  rw [if_pos hdur]

/-- C8 witness: a handler asynchronously waiting 4 time units below a
10-unit budget still completes with its declared status and body. -/
theorem c8_dispatch_within_budget_witness :
    invokeHandler 10 ⟨6, ⟨200, "ping", [], true⟩⟩ =
      InvocationResult.ok ⟨200, "ping", [], true⟩ :=
  c8_dispatch_within_budget 10 ⟨6, ⟨200, "ping", [], true⟩⟩ (by decide)

/-- C6: on a site whose root contains only `index.html`, requesting `/`
returns that file's exact content with status 200; on a site containing only
`foo/index.html`, requesting `/foo` resolves the directory and falls back to
the nested `index.html`, returning its content. -/
theorem c6_static_index_fallback (content : String) :
    (routeRequest ⟨[], [], [], [("index.html", content)], 10⟩ "/").1.statusCode = 200 ∧
      (routeRequest ⟨[], [], [], [("index.html", content)], 10⟩ "/").1.body = content ∧
      (routeRequest ⟨[], [], [], [("foo/index.html", content)], 10⟩ "/foo").1.statusCode = 200 ∧
      (routeRequest ⟨[], [], [], [("foo/index.html", content)], 10⟩ "/foo").1.body = content := by
  refine ⟨?_, ?_, ?_, ?_⟩ <;> rfl

/-- C2: in the dev context, a variable present in both the `.env.development`
file and the process environment resolves to the process environment's value;
one present only in the file resolves to the file's value. -/
theorem c2_dev_env_file_vs_process (cfg : EnvConfig) (k vf : String)
    (hfile : lastLookup cfg.envFile k = some vf) :
    (∀ vp, lastLookup cfg.processEnv k = some vp →
        (resolveEnv "dev" cfg).lookup k = some vp) ∧
      (lastLookup cfg.processEnv k = none →
        (resolveEnv "dev" cfg).lookup k = some vf) := by
  unfold resolveEnv
  rw [if_pos rfl]
  constructor
  · intro vp hp
    rw [lookup_applyOverrides, hp]
    rfl
  · intro hp
    rw [lookup_applyOverrides, hp, Option.none_or, lookup_applyOverrides, hfile]
    rfl

/-- C2 witness: the dev resolution at a concrete configuration — `TEST` set in
both the env file and the process environment resolves to the process value,
and with the process environment empty it resolves to the file value. -/
theorem c2_dev_env_file_vs_process_witness :
    (resolveEnv "dev"
        ⟨[], fun _ => [], [("TEST", "FROM_DEV_FILE")],
          [("TEST", "FROM_PROCESS_ENV")]⟩).lookup "TEST" = some "FROM_PROCESS_ENV" ∧
      (resolveEnv "dev"
        ⟨[], fun _ => [], [("TEST", "FROM_DEV_FILE")], []⟩).lookup "TEST" =
        some "FROM_DEV_FILE" :=
  ⟨(c2_dev_env_file_vs_process
      ⟨[], fun _ => [], [("TEST", "FROM_DEV_FILE")], [("TEST", "FROM_PROCESS_ENV")]⟩
      "TEST" "FROM_DEV_FILE" rfl).1 "FROM_PROCESS_ENV" rfl,
    (c2_dev_env_file_vs_process
      ⟨[], fun _ => [], [("TEST", "FROM_DEV_FILE")], []⟩
      "TEST" "FROM_DEV_FILE" rfl).2 rfl⟩

/-- C3 counterexample: the claim as stated fails when a stronger layer also
defines the key — with `TEST` in `build.environment`, in
`context.production.environment` and in the process environment, the resolved
value is the process environment's, not the context-specific one. -/
theorem c3_counterexample_process_wins :
    (resolveEnv "production"
        ⟨[("TEST", "DEFAULT_CONTEXT")],
          (fun c => if c == "production" then [("TEST", "CTX_VALUE")] else []),
          [], [("TEST", "FROM_PROCESS_ENV")]⟩).lookup "TEST" ≠ some "CTX_VALUE" := by
  decide

/-- C3 (amended): for every active context and key declared in both
`build.environment` and the context's environment block, provided no stronger
layer (the dev env file in the dev context, or the process environment)
defines the key, the resolved environment maps it to the context-specific
value, not the build-level one. -/
theorem c3_context_overrides_build (ctx : String) (cfg : EnvConfig) (k vb vc : String)
    (_hbuild : lastLookup cfg.buildEnvironment k = some vb)
    (hctx : lastLookup (cfg.contextEnvironment ctx) k = some vc)
    (hfile : ctx = "dev" → lastLookup cfg.envFile k = none)
    (hproc : lastLookup cfg.processEnv k = none) :
    (resolveEnv ctx cfg).lookup k = some vc := by
  unfold resolveEnv
  rw [lookup_applyOverrides, hproc, Option.none_or, lookup_applyOverrides]
  have hmid : lastLookup (if ctx = "dev" then cfg.envFile else []) k = none := by
    by_cases hdev : ctx = "dev"
    · rw [if_pos hdev]
      exact hfile hdev
    · rw [if_neg hdev]
      rfl
  rw [hmid, Option.none_or, lookup_applyOverrides, hctx]
  rfl

/-- C3 witness: the amended claim at the integration-test configuration —
`TEST` declared as `DEFAULT_CONTEXT` in `build.environment` and as
`DEV_CONTEXT` in `context.dev.environment`, resolved in the dev context with
no env file and no process entry, yields the context-specific value. -/
theorem c3_context_overrides_build_witness :
    (resolveEnv "dev"
        ⟨[("TEST", "DEFAULT_CONTEXT")],
          (fun c => if c == "dev" then [("TEST", "DEV_CONTEXT")] else []),
          [], []⟩).lookup "TEST" = some "DEV_CONTEXT" :=
  c3_context_overrides_build "dev" _ "TEST" "DEFAULT_CONTEXT" "DEV_CONTEXT"
    rfl rfl (fun _ => rfl) rfl

/-- C7: for a pair of header rules r1 (declared earlier) and r2 (declared
later) both matching a request path, the merged header set carries r2's value
for every name defined by both rules, r1's value for every name defined only
by r1, and r2's value for every name defined only by r2 — distinct names from
both rules survive the merge. -/
theorem c7_header_rules_merge (r1 r2 : HeaderRule) (path n : String)
    (hm1 : patternMatches r1.pathPattern path = true)
    (hm2 : patternMatches r2.pathPattern path = true) :
    (∀ v1 v2, lastLookup r1.headers n = some v1 → lastLookup r2.headers n = some v2 →
        (mergeHeaders [r1, r2] path).lookup n = some v2) ∧
      (∀ v1, lastLookup r1.headers n = some v1 → lastLookup r2.headers n = none →
        (mergeHeaders [r1, r2] path).lookup n = some v1) ∧
      (∀ v2, lastLookup r1.headers n = none → lastLookup r2.headers n = some v2 →
        (mergeHeaders [r1, r2] path).lookup n = some v2) := by
  have hfold : mergeHeaders [r1, r2] path =
      applyOverrides (applyOverrides [] r1.headers) r2.headers := by
    unfold mergeHeaders
    rw [List.filter_cons, if_pos hm1, List.filter_cons, if_pos hm2]
    rfl
  refine ⟨?_, ?_, ?_⟩
  · intro v1 v2 h1 h2
    rw [hfold, lookup_applyOverrides, h2]
    rfl
  · intro v1 h1 h2
    rw [hfold, lookup_applyOverrides, h2, Option.none_or, lookup_applyOverrides, h1]
    rfl
  · intro v2 h1 h2
    rw [hfold, lookup_applyOverrides, h2]
    rfl

/-- C7 witness: two rules both matching `/` — the later rule's value wins for
the shared name `X-Frame-Options`, the earlier rule's `Cache-Control` and the
later rule's `Vary` both survive. -/
theorem c7_header_rules_merge_witness :
    (mergeHeaders
        [⟨"/*", [("X-Frame-Options", "DENY"), ("Cache-Control", "no-store")]⟩,
          ⟨"/*", [("X-Frame-Options", "SAMEORIGIN"), ("Vary", "Accept")]⟩]
        "/").lookup "X-Frame-Options" = some "SAMEORIGIN" ∧
      (mergeHeaders
        [⟨"/*", [("X-Frame-Options", "DENY"), ("Cache-Control", "no-store")]⟩,
          ⟨"/*", [("X-Frame-Options", "SAMEORIGIN"), ("Vary", "Accept")]⟩]
        "/").lookup "Cache-Control" = some "no-store" ∧
      (mergeHeaders
        [⟨"/*", [("X-Frame-Options", "DENY"), ("Cache-Control", "no-store")]⟩,
          ⟨"/*", [("X-Frame-Options", "SAMEORIGIN"), ("Vary", "Accept")]⟩]
        "/").lookup "Vary" = some "Accept" :=
  ⟨(c7_header_rules_merge
      ⟨"/*", [("X-Frame-Options", "DENY"), ("Cache-Control", "no-store")]⟩
      ⟨"/*", [("X-Frame-Options", "SAMEORIGIN"), ("Vary", "Accept")]⟩
      "/" "X-Frame-Options" (by decide) (by decide)).1 "DENY" "SAMEORIGIN" rfl rfl,
    (c7_header_rules_merge
      ⟨"/*", [("X-Frame-Options", "DENY"), ("Cache-Control", "no-store")]⟩
      ⟨"/*", [("X-Frame-Options", "SAMEORIGIN"), ("Vary", "Accept")]⟩
      "/" "Cache-Control" (by decide) (by decide)).2.1 "no-store" rfl rfl,
    (c7_header_rules_merge
      ⟨"/*", [("X-Frame-Options", "DENY"), ("Cache-Control", "no-store")]⟩
      ⟨"/*", [("X-Frame-Options", "SAMEORIGIN"), ("Vary", "Accept")]⟩
      "/" "Vary" (by decide) (by decide)).2.2 "Accept" rfl rfl⟩

/-- C1 counterexample: the claim as stated requires the 400 body to contain
the invoked function's name, but the rejection body is the fixed message
pinned by the integration test — for a handler named `hello` that omits the
builder metadata, the builder-path response is a 400 whose body does not
contain `hello`. -/
theorem c1_counterexample_name_not_in_body :
    (routeRequest
        ⟨[⟨"hello", ⟨4, ⟨200, "ping", [], false⟩⟩, .unknown⟩], [], [], [], 26⟩
        "/.netlify/builders/hello").1.statusCode = 400 ∧
      strContains
        (routeRequest
          ⟨[⟨"hello", ⟨4, ⟨200, "ping", [], false⟩⟩, .unknown⟩], [], [], [], 26⟩
          "/.netlify/builders/hello").1.body "hello" = false := by
  decide

/-- C1 (amended): for every function handler whose response omits
`metadata.builder_function === true`, a request to `/.netlify/builders/<name>`
returns a 400 response whose body is the fixed builder-conversion hint
directing to documentation (it does not in general contain the function's
name), and the handler's original response is not forwarded to the caller. -/
theorem c1_builder_contract_rejection (st : ServerState) (name : String)
    (d : FunctionDescriptor)
    (hlook : lookupFunction st.registry name = some d)
    (hdur : d.handler.duration < st.timeoutBudget)
    (hmeta : d.handler.response.builderMetadata = false) :
    (routeRequest st ("/.netlify/builders/" ++ name)).1.statusCode = 400 ∧
      (routeRequest st ("/.netlify/builders/" ++ name)).1.body = builderRejectionBody ∧
      strContains (routeRequest st ("/.netlify/builders/" ++ name)).1.body
        "not an on-demand builder" = true ∧
      strContains (routeRequest st ("/.netlify/builders/" ++ name)).1.body
        "https://ntl.fyi/create-builder" = true ∧
      (d.handler.response.body ≠ builderRejectionBody →
        (routeRequest st ("/.netlify/builders/" ++ name)).1.body ≠
          d.handler.response.body) := by
  obtain ⟨hresp, -⟩ := routeRequest_builder_reject st name d hlook hdur hmeta
  rw [hresp]
  refine ⟨rfl, rfl, by decide, by decide, ?_⟩
  intro hne heq
  exact hne heq.symm

/-- C1 witness: the amended claim at the integration-test setup — a handler
named `builder` answering 200/`ping` with no builder metadata is rejected on
the builder path with the fixed 400 hint body. -/
theorem c1_builder_contract_rejection_witness :
    (routeRequest
        ⟨[⟨"builder", ⟨4, ⟨200, "ping", [], false⟩⟩, .unknown⟩], [], [], [], 26⟩
        ("/.netlify/builders/" ++ "builder")).1.statusCode = 400 ∧
      (routeRequest
        ⟨[⟨"builder", ⟨4, ⟨200, "ping", [], false⟩⟩, .unknown⟩], [], [], [], 26⟩
        ("/.netlify/builders/" ++ "builder")).1.body = builderRejectionBody ∧
      strContains
        (routeRequest
          ⟨[⟨"builder", ⟨4, ⟨200, "ping", [], false⟩⟩, .unknown⟩], [], [], [], 26⟩
          ("/.netlify/builders/" ++ "builder")).1.body "not an on-demand builder" = true ∧
      strContains
        (routeRequest
          ⟨[⟨"builder", ⟨4, ⟨200, "ping", [], false⟩⟩, .unknown⟩], [], [], [], 26⟩
          ("/.netlify/builders/" ++ "builder")).1.body "https://ntl.fyi/create-builder" = true ∧
      (("ping" : String) ≠ builderRejectionBody →
        (routeRequest
          ⟨[⟨"builder", ⟨4, ⟨200, "ping", [], false⟩⟩, .unknown⟩], [], [], [], 26⟩
          ("/.netlify/builders/" ++ "builder")).1.body ≠ "ping") :=
  c1_builder_contract_rejection
    ⟨[⟨"builder", ⟨4, ⟨200, "ping", [], false⟩⟩, .unknown⟩], [], [], [], 26⟩
    "builder" ⟨"builder", ⟨4, ⟨200, "ping", [], false⟩⟩, .unknown⟩
    rfl (by decide) rfl

/-- C4: a request to `/.netlify/functions/<name>` is dispatched via the normal
function path and returns the handler's declared status and body whatever the
descriptor's builder flag; and after a builder-path rejection has demoted the
flag, the same request against the resulting server state still succeeds with
the declared status and body. -/
theorem c4_function_path_always_dispatches (st : ServerState) (name : String)
    (d : FunctionDescriptor)
    (hlook : lookupFunction st.registry name = some d)
    (hdur : d.handler.duration < st.timeoutBudget) :
    ((routeRequest st ("/.netlify/functions/" ++ name)).1.statusCode =
        d.handler.response.statusCode ∧
      (routeRequest st ("/.netlify/functions/" ++ name)).1.body =
        d.handler.response.body) ∧
      (d.handler.response.builderMetadata = false →
        (routeRequest ((routeRequest st ("/.netlify/builders/" ++ name)).2)
            ("/.netlify/functions/" ++ name)).1.statusCode =
          d.handler.response.statusCode ∧
        (routeRequest ((routeRequest st ("/.netlify/builders/" ++ name)).2)
            ("/.netlify/functions/" ++ name)).1.body = d.handler.response.body) := by
  obtain ⟨hs, hb, -⟩ := routeRequest_function_ok st name d hlook hdur
  refine ⟨⟨hs, hb⟩, ?_⟩
  intro hmeta
  obtain ⟨-, hst⟩ := routeRequest_builder_reject st name d hlook hdur hmeta
  cases hst with
  | inl h =>
    rw [h]
    exact ⟨hs, hb⟩
  | inr h =>
    rw [h]
    have hlook2 : lookupFunction
        ({ st with registry := setBuilderFlag st.registry name .demoted } :
          ServerState).registry name = some { d with isBuilder := .demoted } :=
      lookupFunction_setBuilderFlag st.registry name .demoted d hlook
    obtain ⟨hs2, hb2, -⟩ :=
      routeRequest_function_ok
        { st with registry := setBuilderFlag st.registry name .demoted }
        name { d with isBuilder := .demoted } hlook2 hdur
    exact ⟨hs2, hb2⟩

/-- C4 witness: the integration-test setup — after the builder path rejected
the metadata-less handler `builder` (demoting its flag), the normal function
path still answers 200/`ping`, as it does before the rejection. -/
theorem c4_function_path_always_dispatches_witness :
    (((routeRequest
        ⟨[⟨"builder", ⟨4, ⟨200, "ping", [], false⟩⟩, .unknown⟩], [], [], [], 26⟩
        ("/.netlify/functions/" ++ "builder")).1.statusCode = 200 ∧
      (routeRequest
        ⟨[⟨"builder", ⟨4, ⟨200, "ping", [], false⟩⟩, .unknown⟩], [], [], [], 26⟩
        ("/.netlify/functions/" ++ "builder")).1.body = "ping") ∧
      (false = false →
        (routeRequest
            ((routeRequest
              ⟨[⟨"builder", ⟨4, ⟨200, "ping", [], false⟩⟩, .unknown⟩], [], [], [], 26⟩
              ("/.netlify/builders/" ++ "builder")).2)
            ("/.netlify/functions/" ++ "builder")).1.statusCode = 200 ∧
        (routeRequest
            ((routeRequest
              ⟨[⟨"builder", ⟨4, ⟨200, "ping", [], false⟩⟩, .unknown⟩], [], [], [], 26⟩
              ("/.netlify/builders/" ++ "builder")).2)
            ("/.netlify/functions/" ++ "builder")).1.body = "ping")) :=
  c4_function_path_always_dispatches
    ⟨[⟨"builder", ⟨4, ⟨200, "ping", [], false⟩⟩, .unknown⟩], [], [], [], 26⟩
    "builder" ⟨"builder", ⟨4, ⟨200, "ping", [], false⟩⟩, .unknown⟩
    rfl (by decide)

/-- C5: a handler that returns `metadata.builder_function: true` succeeds both
through `/.netlify/functions/<name>` and through `/.netlify/builders/<name>`,
with the declared status and the same body on both paths (provided its flag
has not been demoted, which a metadata-true handler never is). -/
theorem c5_builder_metadata_both_paths (st : ServerState) (name : String)
    (d : FunctionDescriptor)
    (hlook : lookupFunction st.registry name = some d)
    (hdur : d.handler.duration < st.timeoutBudget)
    (hmeta : d.handler.response.builderMetadata = true)
    (hflag : d.isBuilder ≠ BuilderFlag.demoted) :
    (routeRequest st ("/.netlify/functions/" ++ name)).1.statusCode =
        d.handler.response.statusCode ∧
      (routeRequest st ("/.netlify/functions/" ++ name)).1.body =
        d.handler.response.body ∧
      (routeRequest st ("/.netlify/builders/" ++ name)).1.statusCode =
        d.handler.response.statusCode ∧
      (routeRequest st ("/.netlify/builders/" ++ name)).1.body =
        d.handler.response.body ∧
      (routeRequest st ("/.netlify/functions/" ++ name)).1.body =
        (routeRequest st ("/.netlify/builders/" ++ name)).1.body := by
  obtain ⟨hs, hb, -⟩ := routeRequest_function_ok st name d hlook hdur
  have hbuild : (routeRequest st ("/.netlify/builders/" ++ name)).1 =
      withRuleHeaders st ("/.netlify/builders/" ++ name) d.handler.response := by
    simp only [routeRequest, parseRequest_builderRoute, hlook, invokeHandler, if_pos hdur]
    cases hflag2 : d.isBuilder with
    | demoted => exact absurd hflag2 hflag
    | unknown => simp [hmeta]
    | confirmed => simp [hmeta]
  refine ⟨hs, hb, ?_, ?_, ?_⟩
  · rw [hbuild]
    rfl
  · rw [hbuild]
    rfl
  · rw [hb, hbuild]
    rfl

/-- C5 witness: the integration-test setup — the handler `timeout` declaring
builder metadata answers 200/`ping` identically on the function path and on
the builder path. -/
theorem c5_builder_metadata_both_paths_witness :
    (routeRequest
        ⟨[⟨"timeout", ⟨4, ⟨200, "ping", [], true⟩⟩, .unknown⟩], [], [], [], 10⟩
        ("/.netlify/functions/" ++ "timeout")).1.statusCode = 200 ∧
      (routeRequest
        ⟨[⟨"timeout", ⟨4, ⟨200, "ping", [], true⟩⟩, .unknown⟩], [], [], [], 10⟩
        ("/.netlify/functions/" ++ "timeout")).1.body = "ping" ∧
      (routeRequest
        ⟨[⟨"timeout", ⟨4, ⟨200, "ping", [], true⟩⟩, .unknown⟩], [], [], [], 10⟩
        ("/.netlify/builders/" ++ "timeout")).1.statusCode = 200 ∧
      (routeRequest
        ⟨[⟨"timeout", ⟨4, ⟨200, "ping", [], true⟩⟩, .unknown⟩], [], [], [], 10⟩
        ("/.netlify/builders/" ++ "timeout")).1.body = "ping" ∧
      (routeRequest
        ⟨[⟨"timeout", ⟨4, ⟨200, "ping", [], true⟩⟩, .unknown⟩], [], [], [], 10⟩
        ("/.netlify/functions/" ++ "timeout")).1.body =
        (routeRequest
          ⟨[⟨"timeout", ⟨4, ⟨200, "ping", [], true⟩⟩, .unknown⟩], [], [], [], 10⟩
          ("/.netlify/builders/" ++ "timeout")).1.body :=
  c5_builder_metadata_both_paths
    ⟨[⟨"timeout", ⟨4, ⟨200, "ping", [], true⟩⟩, .unknown⟩], [], [], [], 10⟩
    "timeout" ⟨"timeout", ⟨4, ⟨200, "ping", [], true⟩⟩, .unknown⟩
    rfl (by decide) rfl (by decide)

/-- C9: converting an existing variable to a secret without an explicit
`--context` — when a stored value targets the `all` context, `env:set` issues
a single whole-variable update replacing it with one value per concrete
context, the dev context's value emptied and every other context receiving
the former `all` value. -/
theorem c9_secret_conversion_splits_all (scope : Option (List String))
    (key : String) (vars : List EnvVar) (existing : EnvVar) (allVal : EnvVarValue)
    (hfind : vars.find? (fun envVar => envVar.key == key) = some existing)
    (hscope : (scope.getD []).all (fun sco => !isPostProcessingScope sco) = true)
    (hall : existing.values.find? (fun val => val.context == "all") = some allVal) :
    ∃ scopes, setInEnvelope none key scope true "" vars =
      ⟨[ApiCall.updateEnvVar key true scopes
          [⟨"production", none, allVal.value⟩,
            ⟨"deploy-preview", none, allVal.value⟩,
            ⟨"branch-deploy", none, allVal.value⟩,
            ⟨"dev", none, ""⟩]], none⟩ := by
  have hmem : allVal ∈ existing.values := List.mem_of_find?_eq_some hall
  have hprop : (allVal.context == "all") = true :=
    @List.find?_some EnvVarValue (fun val => val.context == "all") allVal
      existing.values hall
  have hany : existing.values.any (fun val => val.context == "all") = true :=
    List.any_eq_true.mpr ⟨allVal, hmem, hprop⟩
  cases scope with
  | none =>
    refine ⟨existing.scopes.filter (fun sco => !isPostProcessingScope sco), ?_⟩
    simp [setInEnvelope, hfind, hany, hall, AVAILABLE_CONTEXTS]
  | some s =>
    have hs : s.any isPostProcessingScope = false := by
      rw [List.any_eq_false]
      intro x hx
      have hx2 := List.all_eq_true.mp hscope x hx
      simp only [Bool.not_eq_true'] at hx2
      simp [hx2]
    refine ⟨(s.filter (fun sco => !isPostProcessingScope sco)).filter
      (fun sco => !isPostProcessingScope sco), ?_⟩
    simp [setInEnvelope, hs, hfind, hany, hall, AVAILABLE_CONTEXTS]

/-- C9 witness: converting the existing variable `K` (stored as
`SECRETVAL` for the `all` context) to a secret with no context and no scope
flag yields one update call with per-context values, dev emptied. -/
theorem c9_secret_conversion_splits_all_witness :
    ∃ scopes, setInEnvelope none "K" none true ""
        [⟨"K", ["builds", "functions"], [⟨"all", none, "SECRETVAL"⟩]⟩] =
      ⟨[ApiCall.updateEnvVar "K" true scopes
          [⟨"production", none, "SECRETVAL"⟩,
            ⟨"deploy-preview", none, "SECRETVAL"⟩,
            ⟨"branch-deploy", none, "SECRETVAL"⟩,
            ⟨"dev", none, ""⟩]], none⟩ :=
  c9_secret_conversion_splits_all none "K"
    [⟨"K", ["builds", "functions"], [⟨"all", none, "SECRETVAL"⟩]⟩]
    ⟨"K", ["builds", "functions"], [⟨"all", none, "SECRETVAL"⟩]⟩
    ⟨"all", none, "SECRETVAL"⟩ rfl rfl rfl

/-- C10: invoking `env:set` on an existing variable with both `--context` and
`--scope` supplied fails with an error and issues no mutating API call. -/
theorem c10_context_and_scope_rejected (cs ss : List String) (key value : String)
    (secret : Bool) (vars : List EnvVar) (existing : EnvVar)
    (hfind : vars.find? (fun envVar => envVar.key == key) = some existing) :
    (setInEnvelope (some cs) key (some ss) secret value vars).calls = [] ∧
      (setInEnvelope (some cs) key (some ss) secret value vars).errorMsg.isSome = true := by
  unfold setInEnvelope
  by_cases h1 : (secret && ss.any isPostProcessingScope) = true
  · rw [if_pos h1]
    exact ⟨rfl, rfl⟩
  · rw [if_neg h1]
    by_cases h2 : (secret && value != "" &&
        ((some cs : Option (List String)).isNone || ((some cs : Option (List String)).getD []).contains "dev")) = true
    · rw [if_pos h2]
      exact ⟨rfl, rfl⟩
    · rw [if_neg h2]
      simp only [hfind]
      exact ⟨rfl, rfl⟩

/-- C10 witness: setting the existing variable `K` with both a context and a
scope flag errors out with no mutating call. -/
theorem c10_context_and_scope_rejected_witness :
    (setInEnvelope (some ["production"]) "K" (some ["builds"]) false "v"
        [⟨"K", ["builds"], [⟨"all", none, "x"⟩]⟩]).calls = [] ∧
      (setInEnvelope (some ["production"]) "K" (some ["builds"]) false "v"
        [⟨"K", ["builds"], [⟨"all", none, "x"⟩]⟩]).errorMsg.isSome = true :=
  c10_context_and_scope_rejected ["production"] ["builds"] "K" "v" false
    [⟨"K", ["builds"], [⟨"all", none, "x"⟩]⟩]
    ⟨"K", ["builds"], [⟨"all", none, "x"⟩]⟩ rfl
